import Mathlib

/-!
Verification of the magnetic spiral structure generator
(`spiral-3d-v4-xsf-claude.py`): a shallow embedding of
`generate_spiral_structure` and of the serialization performed by
`create_xsf_file`, followed by theorems about the embedded program.

Real-valued arithmetic of the source (numpy trigonometry) is embedded
over `ℝ`; the fixed-point text formatting of the serializer is embedded
over `ℚ`, where it is exact and computable.
-/

open Real

/-- The list of grid sites produced by the triple nested loop
`for i in range(R_max[0]): for j in range(R_max[1]): for k in range(R_max[2])`,
in exactly that order, each site appended as `[i, j, k]`. -/
def sitesList (Rm : ℕ × ℕ × ℕ) : List (ℕ × ℕ × ℕ) :=
  (List.range Rm.1).flatMap fun i =>
    (List.range Rm.2.1).flatMap fun j =>
      (List.range Rm.2.2).map fun k => (i, j, k)

/-- Phase of one site:
`phase = (q_vector[0]*i + q_vector[1]*j + q_vector[2]*k) * 2 * np.pi`. -/
noncomputable def phase (q : ℝ × ℝ × ℝ) (p : ℕ × ℕ × ℕ) : ℝ :=
  (q.1 * p.1 + q.2.1 * p.2.1 + q.2.2 * p.2.2) * 2 * Real.pi

/-- The moment stored for one site: rotation-matrix application
`mx = m0x*cos(phase) - m0y*sin(phase)`, `my = m0x*sin(phase) + m0y*cos(phase)`,
`mz = m0z`. -/
noncomputable def momentAt (q m0 : ℝ × ℝ × ℝ) (p : ℕ × ℕ × ℕ) : ℝ × ℝ × ℝ :=
  (m0.1 * Real.cos (phase q p) - m0.2.1 * Real.sin (phase q p),
   m0.1 * Real.sin (phase q p) + m0.2.1 * Real.cos (phase q p),
   m0.2.2)

/-- The `else` branch of the angle computation: dot product with the first
moment, the two magnitudes, the zero-magnitude fallback `0.0`, otherwise
`np.arccos(np.clip(cos_angle, -1, 1)) * 180 / np.pi`. -/
noncomputable def angleCalc (m mf : ℝ × ℝ × ℝ) : ℝ :=
  let dot_product := m.1 * mf.1 + m.2.1 * mf.2.1 + m.2.2 * mf.2.2
  let mag_current := Real.sqrt (m.1 ^ 2 + m.2.1 ^ 2 + m.2.2 ^ 2)
  let mag_first := Real.sqrt (mf.1 ^ 2 + mf.2.1 ^ 2 + mf.2.2 ^ 2)
  if mag_current * mag_first = 0 then 0
  else Real.arccos (max (-1) (min (dot_product / (mag_current * mag_first)) 1)) * 180 / Real.pi

/-- The angles list: entry `num = 0` is `0.0` by the `if num == 0` branch;
entry `num > 0` is computed from that entry's moment and
`magnetic_moments[0]` (the moment of the first generated site, i.e. the
head of the moments list; `headI` is only consulted when the list is
nonempty, exactly as in the loop). -/
noncomputable def anglesList (moms : List (ℝ × ℝ × ℝ)) : List ℝ :=
  moms.enum.map fun nm => if nm.1 = 0 then 0 else angleCalc nm.2 moms.headI

set_option linter.unusedVariables false in
/-- Embedding of `generate_spiral_structure(atoms_in_spiral, R_max, q_vector,
initial_moment)`: returns `(positions, magnetic_moments, angles)`.  The
`atoms_in_spiral` argument is never read in the body, exactly as in the
source. -/
noncomputable def generate_spiral_structure (atoms_in_spiral : ℤ)
    (R_max : ℕ × ℕ × ℕ) (q_vector initial_moment : ℝ × ℝ × ℝ) :
    List (ℕ × ℕ × ℕ) × List (ℝ × ℝ × ℝ) × List ℝ :=
  let positions := sitesList R_max
  let magnetic_moments := positions.map (momentAt q_vector initial_moment)
  (positions, magnetic_moments, anglesList magnetic_moments)

/-! ## The serializer

`create_xsf_file` writes a fixed-format text document to a file.  Its
pure content is embedded twice: `create_xsf_doc` keeps the numbers that
are passed to the `f.write` format fields (over `ℝ`), and
`create_xsf_text` renders the full document text with Python's
fixed-point formatting, over `ℚ` where that formatting is exact. -/

/-- Structured content of the document written by `create_xsf_file`:
the three diagonal cell dimensions `R_max[r]*scale`, the atom count
`len(positions)` of the PRIMCOORD count line, and, for each
`zip(positions, magnetic_moments)` pair, the six numbers
`pos*scale, mom*scale` of one data record. -/
structure XsfDoc where
  cell : ℝ × ℝ × ℝ
  count : ℕ
  records : List ((ℝ × ℝ × ℝ) × (ℝ × ℝ × ℝ))

/-- Embedding of the values written by `create_xsf_file(positions,
magnetic_moments, R_max, filename, scale)`. -/
def create_xsf_doc (positions magnetic_moments : List (ℝ × ℝ × ℝ))
    (R_max : ℕ × ℕ × ℕ) (scale : ℝ) : XsfDoc :=
  ⟨((R_max.1 : ℝ) * scale, (R_max.2.1 : ℝ) * scale, (R_max.2.2 : ℝ) * scale),
   positions.length,
   (positions.zip magnetic_moments).map fun pm =>
     ((pm.1.1 * scale, pm.1.2.1 * scale, pm.1.2.2 * scale),
      (pm.2.1 * scale, pm.2.2.1 * scale, pm.2.2.2 * scale))⟩

/-- Round to the nearest integer, ties to even (the rounding used by
Python's fixed-point float formatting). -/
def rndHalfEven (x : ℚ) : ℤ :=
  let f := Rat.floor x
  if 2 * (x - f) < 1 then f
  else if 1 < 2 * (x - f) then f + 1
  else if f % 2 = 0 then f else f + 1

/-- Left-pad a string with spaces to width `w`. -/
def padLeft (w : ℕ) (s : String) : String :=
  String.mk (List.replicate (w - s.length) ' ') ++ s

/-- Fixed-point formatting of `x` with `p` decimals in a field of width
`w`, the embedding of Python's format spec `{x:w.pf}`. -/
def fmtFixed (w p : ℕ) (x : ℚ) : String :=
  let n := (rndHalfEven (|x| * 10 ^ p)).toNat
  let fracDigits := toString (n % 10 ^ p)
  padLeft w ((if x < 0 then "-" else "") ++ toString (n / 10 ^ p) ++ "." ++
    (String.mk (List.replicate (p - fracDigits.length) '0') ++ fracDigits))

/-- One data record line:
`f"26  {x:8.4f}  {y:8.4f}  {z:8.4f}  {mx:8.4f}  {my:8.4f}  {mz:8.4f}\n"`
with `x, y, z = pos*scale` and `mx, my, mz = mom*scale`. -/
def xsfRecordLine (scale : ℚ) (pm : (ℚ × ℚ × ℚ) × (ℚ × ℚ × ℚ)) : String :=
  "26  " ++ fmtFixed 8 4 (pm.1.1 * scale) ++ "  " ++
    fmtFixed 8 4 (pm.1.2.1 * scale) ++ "  " ++
    fmtFixed 8 4 (pm.1.2.2 * scale) ++ "  " ++
    fmtFixed 8 4 (pm.2.1 * scale) ++ "  " ++
    fmtFixed 8 4 (pm.2.2.1 * scale) ++ "  " ++
    fmtFixed 8 4 (pm.2.2.2 * scale) ++ "\n"

/-- Full text written by `create_xsf_file`, line for line. -/
def create_xsf_text (positions magnetic_moments : List (ℚ × ℚ × ℚ))
    (R_max : ℕ × ℕ × ℕ) (scale : ℚ) : String :=
  "# XSF file generated for magnetic spiral visualization\n" ++
  "# Can be opened in VESTA to visualize magnetic moments\n" ++
  "CRYSTAL\n" ++
  "PRIMVEC\n" ++
  fmtFixed 6 1 ((R_max.1 : ℚ) * scale) ++ "  0.0  0.0\n" ++
  "  0.0  " ++ fmtFixed 6 1 ((R_max.2.1 : ℚ) * scale) ++ "  0.0\n" ++
  "  0.0  0.0  " ++ fmtFixed 6 1 ((R_max.2.2 : ℚ) * scale) ++ "\n" ++
  "PRIMCOORD\n" ++
  toString positions.length ++ " 1\n" ++
  String.join ((positions.zip magnetic_moments).map (xsfRecordLine scale)) ++
  "\n"

/-- Helper for `textLines`: split a character list at newline characters,
keeping the (possibly empty) trailing piece. -/
def linesAux : List Char → List Char → List (List Char)
  | [], acc => [acc.reverse]
  | c :: cs, acc =>
      if c = '\n' then acc.reverse :: linesAux cs [] else linesAux cs (c :: acc)

/-- The lines of a document: the pieces between newline characters (the
same splitting as Python's `str.split` on a newline separator). -/
def textLines (s : String) : List String := (linesAux s.data []).map String.mk

/-! ## Lattice lemmas -/

theorem flatMap_range_length {α : Type} (f : ℕ → List α) (L n : ℕ)
    (hL : ∀ a, (f a).length = L) :
    ((List.range n).flatMap f).length = n * L := by
  have hmap : List.map (List.length ∘ f) (List.range n) =
      List.map (fun _ => L) (List.range n) :=
    List.map_congr_left fun a _ => by simp [Function.comp, hL a]
  rw [List.length_flatMap, hmap, List.map_const', List.length_range,
    List.sum_replicate, smul_eq_mul]

theorem flatMap_range_getElem {α : Type} (f : ℕ → List α) (L : ℕ)
    (hL : ∀ a, (f a).length = L) (n a b : ℕ) (ha : a < n) (hb : b < L) :
    ((List.range n).flatMap f)[a * L + b]? = (f a)[b]? := by
  induction n with
  | zero => omega
  | succ m ih =>
    rw [List.range_succ, List.flatMap_append, List.getElem?_append]
    have hlen : ((List.range m).flatMap f).length = m * L :=
      flatMap_range_length f L m hL
    rcases Nat.lt_or_ge a m with h | h
    · have hidx : a * L + b < m * L := by
        have e : (a + 1) * L = a * L + L := by ring
        have h2 : (a + 1) * L ≤ m * L := Nat.mul_le_mul_right L h
        omega
      rw [if_pos (by omega)]
      exact ih h
    · have haa : a = m := by omega
      subst haa
      rw [if_neg (by omega)]
      simp [hlen]

theorem sitesList_length (Nx Ny Nz : ℕ) :
    (sitesList (Nx, Ny, Nz)).length = Nx * Ny * Nz := by
  unfold sitesList
  rw [flatMap_range_length _ (Ny * Nz) Nx, mul_assoc]
  intro a
  exact flatMap_range_length _ Nz Ny fun b => by simp

theorem sitesList_getElem (Nx Ny Nz i j k : ℕ)
    (hi : i < Nx) (hj : j < Ny) (hk : k < Nz) :
    (sitesList (Nx, Ny, Nz))[i * (Ny * Nz) + (j * Nz + k)]? = some (i, j, k) := by
  have hjk : j * Nz + k < Ny * Nz := by
    have e : (j + 1) * Nz = j * Nz + Nz := by ring
    have h2 : (j + 1) * Nz ≤ Ny * Nz := Nat.mul_le_mul_right Nz hj
    omega
  unfold sitesList
  rw [flatMap_range_getElem _ (Ny * Nz)
      (fun a => flatMap_range_length _ Nz Ny fun b => by simp) Nx i (j * Nz + k) hi hjk,
    flatMap_range_getElem _ Nz (fun b => by simp) Ny j k hj hk,
    List.getElem?_map, List.getElem?_range hk]
  rfl

theorem sitesList_mem (Nx Ny Nz : ℕ) (p : ℕ × ℕ × ℕ) :
    p ∈ sitesList (Nx, Ny, Nz) ↔ p.1 < Nx ∧ p.2.1 < Ny ∧ p.2.2 < Nz := by
  obtain ⟨i, j, k⟩ := p
  simp only [sitesList, List.mem_flatMap, List.mem_map, List.mem_range]
  constructor
  · rintro ⟨a, ha, b, hb, c, hc, he⟩
    rw [Prod.mk.injEq, Prod.mk.injEq] at he
    obtain ⟨rfl, rfl, rfl⟩ := he
    exact ⟨ha, hb, hc⟩
  · rintro ⟨hi, hj, hk⟩
    exact ⟨i, hi, j, hj, k, hk, rfl⟩

theorem sitesList_nodup (Nx Ny Nz : ℕ) : (sitesList (Nx, Ny, Nz)).Nodup := by
  unfold sitesList
  rw [List.nodup_flatMap]
  refine ⟨fun i _ => ?_, ?_⟩
  · rw [List.nodup_flatMap]
    refine ⟨fun j _ => ?_, ?_⟩
    · exact (List.nodup_range Nz).map fun a b h => by
        simpa using congrArg (fun t : ℕ × ℕ × ℕ => t.2.2) h
    · refine List.Pairwise.imp ?_ (List.pairwise_lt_range Ny)
      intro a b hab x hxa hxb
      obtain ⟨_, _, rfl⟩ := List.mem_map.mp hxa
      obtain ⟨_, _, he⟩ := List.mem_map.mp hxb
      exact absurd (congrArg (fun t : ℕ × ℕ × ℕ => t.2.1) he) (by simp [Nat.ne_of_gt hab])
  · refine List.Pairwise.imp ?_ (List.pairwise_lt_range Nx)
    intro a b hab x hxa hxb
    simp only [List.mem_flatMap, List.mem_map, List.mem_range] at hxa hxb
    obtain ⟨_, _, _, _, rfl⟩ := hxa
    obtain ⟨_, _, _, _, he⟩ := hxb
    exact absurd (congrArg (fun t : ℕ × ℕ × ℕ => t.1) he) (by simp [Nat.ne_of_gt hab])

/-! ## Generator lemmas -/

theorem generate_positions (a : ℤ) (R : ℕ × ℕ × ℕ) (q m0 : ℝ × ℝ × ℝ) :
    (generate_spiral_structure a R q m0).1 = sitesList R := rfl

theorem generate_moments (a : ℤ) (R : ℕ × ℕ × ℕ) (q m0 : ℝ × ℝ × ℝ) :
    (generate_spiral_structure a R q m0).2.1 = (sitesList R).map (momentAt q m0) := rfl

theorem generate_angles (a : ℤ) (R : ℕ × ℕ × ℕ) (q m0 : ℝ × ℝ × ℝ) :
    (generate_spiral_structure a R q m0).2.2 =
      anglesList ((sitesList R).map (momentAt q m0)) := rfl

theorem anglesList_length (moms : List (ℝ × ℝ × ℝ)) :
    (anglesList moms).length = moms.length := by
  simp [anglesList]

theorem angleCalc_self (m : ℝ × ℝ × ℝ) : angleCalc m m = 0 := by
  simp only [angleCalc]
  set s := m.1 ^ 2 + m.2.1 ^ 2 + m.2.2 ^ 2 with hs
  have hs0 : 0 ≤ s := by positivity
  have hss : Real.sqrt s * Real.sqrt s = s := Real.mul_self_sqrt hs0
  by_cases h : Real.sqrt s * Real.sqrt s = 0
  · simp [h]
  · rw [if_neg h]
    have hsne : s ≠ 0 := by rw [← hss]; exact h
    have hdot : m.1 * m.1 + m.2.1 * m.2.1 + m.2.2 * m.2.2 = s := by rw [hs]; ring
    rw [hdot, hss, div_self hsne]
    norm_num [Real.arccos_one]

theorem anglesList_replicate (t : ℕ) (m : ℝ × ℝ × ℝ) :
    anglesList (List.replicate t m) = List.replicate t (0 : ℝ) := by
  rw [List.eq_replicate_iff]
  refine ⟨by simp [anglesList], fun b hb => ?_⟩
  simp only [anglesList, List.mem_map] at hb
  obtain ⟨nm, hnm, rfl⟩ := hb
  by_cases h : nm.1 = 0
  · simp [h]
  · rw [if_neg h]
    have hm : nm.2 = m := by
      have hg := List.mem_enum_iff_getElem?.mp hnm
      rcases List.getElem?_eq_some_iff.mp hg with ⟨hlt, he⟩
      simpa using he.symm
    have hh : (List.replicate t m).headI = m := by
      cases t with
      | zero => simp at hnm
      | succ n => simp [List.replicate_succ]
    rw [hm, hh, angleCalc_self]

theorem angleCalc_nonneg (m mf : ℝ × ℝ × ℝ) : 0 ≤ angleCalc m mf := by
  simp only [angleCalc]
  split
  · exact le_refl 0
  · exact div_nonneg (mul_nonneg (Real.arccos_nonneg _) (by norm_num)) Real.pi_pos.le

theorem angleCalc_le_180 (m mf : ℝ × ℝ × ℝ) : angleCalc m mf ≤ 180 := by
  simp only [angleCalc]
  split
  · norm_num
  · rw [div_le_iff₀ Real.pi_pos]
    calc Real.arccos _ * 180 ≤ Real.pi * 180 :=
          mul_le_mul_of_nonneg_right (Real.arccos_le_pi _) (by norm_num)
    _ = 180 * Real.pi := by ring

theorem momentAt_q_zero (m0 : ℝ × ℝ × ℝ) (p : ℕ × ℕ × ℕ) :
    momentAt (0, 0, 0) m0 p = m0 := by
  simp [momentAt, phase]

theorem momentAt_m0_zero (q : ℝ × ℝ × ℝ) (p : ℕ × ℕ × ℕ) :
    momentAt q (0, 0, 0) p = (0, 0, 0) := by
  simp [momentAt]

/-! ## Claims -/

/-- C1: for every extents `(Nx, Ny, Nz)`, wave vector and initial moment,
`generate_spiral_structure` returns three lists all of length `Nx*Ny*Nz`;
the positions list is duplicate-free and covers the Cartesian product
`[0,Nx) × [0,Ny) × [0,Nz)` exactly once, and each triple `(i, j, k)` sits
at its row-major index `i*(Ny*Nz) + (j*Nz + k)` (i outermost, k
innermost). -/
theorem C1_row_major_enumeration (a : ℤ) (Nx Ny Nz : ℕ) (q m0 : ℝ × ℝ × ℝ)
    (i j k : ℕ) (hi : i < Nx) (hj : j < Ny) (hk : k < Nz) :
    (generate_spiral_structure a (Nx, Ny, Nz) q m0).1.length = Nx * Ny * Nz ∧
    (generate_spiral_structure a (Nx, Ny, Nz) q m0).2.1.length = Nx * Ny * Nz ∧
    (generate_spiral_structure a (Nx, Ny, Nz) q m0).2.2.length = Nx * Ny * Nz ∧
    (generate_spiral_structure a (Nx, Ny, Nz) q m0).1.Nodup ∧
    (generate_spiral_structure a (Nx, Ny, Nz) q m0).1.toFinset =
      Finset.range Nx ×ˢ Finset.range Ny ×ˢ Finset.range Nz ∧
    (generate_spiral_structure a (Nx, Ny, Nz) q m0).1[i * (Ny * Nz) + (j * Nz + k)]? =
      some (i, j, k) := by
  rw [generate_positions, generate_moments, generate_angles]
  refine ⟨sitesList_length Nx Ny Nz, ?_, ?_, sitesList_nodup Nx Ny Nz, ?_,
    sitesList_getElem Nx Ny Nz i j k hi hj hk⟩
  · rw [List.length_map, sitesList_length]
  · rw [anglesList_length, List.length_map, sitesList_length]
  · ext p
    simp [sitesList_mem, Finset.mem_product]

theorem C1_row_major_enumeration_witness :
    (generate_spiral_structure 3 (2, 3, 2) (0, 0, 0) (1, 0, 0)).1.length = 2 * 3 * 2 ∧
    (generate_spiral_structure 3 (2, 3, 2) (0, 0, 0) (1, 0, 0)).2.1.length = 2 * 3 * 2 ∧
    (generate_spiral_structure 3 (2, 3, 2) (0, 0, 0) (1, 0, 0)).2.2.length = 2 * 3 * 2 ∧
    (generate_spiral_structure 3 (2, 3, 2) (0, 0, 0) (1, 0, 0)).1.Nodup ∧
    (generate_spiral_structure 3 (2, 3, 2) (0, 0, 0) (1, 0, 0)).1.toFinset =
      Finset.range 2 ×ˢ Finset.range 3 ×ˢ Finset.range 2 ∧
    (generate_spiral_structure 3 (2, 3, 2) (0, 0, 0) (1, 0, 0)).1[1 * (3 * 2) + (2 * 2 + 1)]? =
      some (1, 2, 1) :=
  C1_row_major_enumeration 3 2 3 2 (0, 0, 0) (1, 0, 0) 1 2 1
    (by decide) (by decide) (by decide)

/-- C2: the moment stored at site `(i, j, k)` is the z-axis rotation of
`m0` by `phase = 2π(qx*i + qy*j + qz*k)`: components
`(mx0*cos φ - my0*sin φ, mx0*sin φ + my0*cos φ, mz0)`. -/
theorem C2_moment_formula (a : ℤ) (Nx Ny Nz : ℕ) (q m0 : ℝ × ℝ × ℝ)
    (i j k : ℕ) (hi : i < Nx) (hj : j < Ny) (hk : k < Nz) :
    (generate_spiral_structure a (Nx, Ny, Nz) q m0).2.1[i * (Ny * Nz) + (j * Nz + k)]? =
      some (m0.1 * Real.cos (2 * Real.pi * (q.1 * i + q.2.1 * j + q.2.2 * k)) -
              m0.2.1 * Real.sin (2 * Real.pi * (q.1 * i + q.2.1 * j + q.2.2 * k)),
            m0.1 * Real.sin (2 * Real.pi * (q.1 * i + q.2.1 * j + q.2.2 * k)) +
              m0.2.1 * Real.cos (2 * Real.pi * (q.1 * i + q.2.1 * j + q.2.2 * k)),
            m0.2.2) := by
  rw [generate_moments, List.getElem?_map, sitesList_getElem Nx Ny Nz i j k hi hj hk,
    Option.map_some']
  have harg : phase q (i, j, k) = 2 * Real.pi * (q.1 * i + q.2.1 * j + q.2.2 * k) := by
    simp only [phase]
    ring
  simp [momentAt, harg]

theorem C2_moment_formula_witness :
    (generate_spiral_structure 3 (1, 1, 2) ((1 : ℝ) / 4, 0, 0) (1, 0, 0)).2.1[0 * (1 * 2) + (0 * 2 + 1)]? =
      some (((1 : ℝ), 0, 0).1 * Real.cos (2 * Real.pi * (((1 : ℝ) / 4, (0 : ℝ), (0 : ℝ)).1 * (0 : ℕ) + ((1 : ℝ) / 4, (0 : ℝ), (0 : ℝ)).2.1 * (0 : ℕ) + ((1 : ℝ) / 4, (0 : ℝ), (0 : ℝ)).2.2 * (1 : ℕ))) -
              ((1 : ℝ), 0, 0).2.1 * Real.sin (2 * Real.pi * (((1 : ℝ) / 4, (0 : ℝ), (0 : ℝ)).1 * (0 : ℕ) + ((1 : ℝ) / 4, (0 : ℝ), (0 : ℝ)).2.1 * (0 : ℕ) + ((1 : ℝ) / 4, (0 : ℝ), (0 : ℝ)).2.2 * (1 : ℕ))),
            ((1 : ℝ), 0, 0).1 * Real.sin (2 * Real.pi * (((1 : ℝ) / 4, (0 : ℝ), (0 : ℝ)).1 * (0 : ℕ) + ((1 : ℝ) / 4, (0 : ℝ), (0 : ℝ)).2.1 * (0 : ℕ) + ((1 : ℝ) / 4, (0 : ℝ), (0 : ℝ)).2.2 * (1 : ℕ))) +
              ((1 : ℝ), 0, 0).2.1 * Real.cos (2 * Real.pi * (((1 : ℝ) / 4, (0 : ℝ), (0 : ℝ)).1 * (0 : ℕ) + ((1 : ℝ) / 4, (0 : ℝ), (0 : ℝ)).2.1 * (0 : ℕ) + ((1 : ℝ) / 4, (0 : ℝ), (0 : ℝ)).2.2 * (1 : ℕ))),
            ((1 : ℝ), 0, 0).2.2) :=
  C2_moment_formula 3 1 1 2 ((1 : ℝ) / 4, 0, 0) (1, 0, 0) 0 0 1
    (by decide) (by decide) (by decide)

/-- C3: every moment in the output has the same Euclidean norm as the
initial moment `m0` (z-axis rotation preserves magnitude). -/
theorem C3_norm_preserved (a : ℤ) (R : ℕ × ℕ × ℕ) (q m0 m : ℝ × ℝ × ℝ)
    (hm : m ∈ (generate_spiral_structure a R q m0).2.1) :
    Real.sqrt (m.1 ^ 2 + m.2.1 ^ 2 + m.2.2 ^ 2) =
      Real.sqrt (m0.1 ^ 2 + m0.2.1 ^ 2 + m0.2.2 ^ 2) := by
  rw [generate_moments] at hm
  obtain ⟨p, hp, rfl⟩ := List.mem_map.mp hm
  have key : (momentAt q m0 p).1 ^ 2 + (momentAt q m0 p).2.1 ^ 2 +
      (momentAt q m0 p).2.2 ^ 2 = m0.1 ^ 2 + m0.2.1 ^ 2 + m0.2.2 ^ 2 := by
    simp only [momentAt]
    have h := Real.sin_sq_add_cos_sq (phase q p)
    linear_combination (m0.1 ^ 2 + m0.2.1 ^ 2) * h
  rw [key]

theorem C3_norm_preserved_witness :
    Real.sqrt ((momentAt ((1 : ℝ) / 4, 0, 0) (1, 2, 2) (0, 0, 0)).1 ^ 2 +
        (momentAt ((1 : ℝ) / 4, 0, 0) (1, 2, 2) (0, 0, 0)).2.1 ^ 2 +
        (momentAt ((1 : ℝ) / 4, 0, 0) (1, 2, 2) (0, 0, 0)).2.2 ^ 2) =
      Real.sqrt (((1 : ℝ), (2 : ℝ), (2 : ℝ)).1 ^ 2 + ((1 : ℝ), (2 : ℝ), (2 : ℝ)).2.1 ^ 2 +
        ((1 : ℝ), (2 : ℝ), (2 : ℝ)).2.2 ^ 2) :=
  C3_norm_preserved 3 (1, 1, 1) ((1 : ℝ) / 4, 0, 0) (1, 2, 2)
    (momentAt ((1 : ℝ) / 4, 0, 0) (1, 2, 2) (0, 0, 0))
    (by simp [generate_spiral_structure, sitesList])

/-- C9: two calls that agree on `R_max`, `q_vector` and `initial_moment`
but differ in `atoms_in_spiral` return identical results: the parameter
is never read. -/
theorem C9_unused_parameter (a b : ℤ) (R : ℕ × ℕ × ℕ) (q m0 : ℝ × ℝ × ℝ) :
    generate_spiral_structure a R q m0 = generate_spiral_structure b R q m0 := rfl

/-- C4: with the zero wave vector `q = (0,0,0)` every stored moment equals
`m0` and every angle is exactly `0.0` (stated for all extents, hence in
particular for positive ones). -/
theorem C4_zero_wave_vector (a : ℤ) (Nx Ny Nz : ℕ) (m0 : ℝ × ℝ × ℝ) :
    (generate_spiral_structure a (Nx, Ny, Nz) (0, 0, 0) m0).2.1 =
      List.replicate (Nx * Ny * Nz) m0 ∧
    (generate_spiral_structure a (Nx, Ny, Nz) (0, 0, 0) m0).2.2 =
      List.replicate (Nx * Ny * Nz) (0 : ℝ) := by
  have hmom : (sitesList (Nx, Ny, Nz)).map (momentAt (0, 0, 0) m0) =
      List.replicate (Nx * Ny * Nz) m0 := by
    calc (sitesList (Nx, Ny, Nz)).map (momentAt (0, 0, 0) m0)
        = (sitesList (Nx, Ny, Nz)).map fun _ => m0 :=
          List.map_congr_left fun p _ => momentAt_q_zero m0 p
      _ = List.replicate (sitesList (Nx, Ny, Nz)).length m0 :=
          List.map_const' _ m0
      _ = List.replicate (Nx * Ny * Nz) m0 := by rw [sitesList_length]
  refine ⟨by rw [generate_moments, hmom], ?_⟩
  rw [generate_angles, hmom, anglesList_replicate]

/-- C6: with the zero initial moment `m0 = (0,0,0)` every stored moment is
`(0,0,0)` and every angle is `0.0`, by the zero-magnitude fallback. -/
theorem C6_zero_initial_moment (a : ℤ) (Nx Ny Nz : ℕ) (q : ℝ × ℝ × ℝ) :
    (generate_spiral_structure a (Nx, Ny, Nz) q (0, 0, 0)).2.1 =
      List.replicate (Nx * Ny * Nz) ((0 : ℝ), (0 : ℝ), (0 : ℝ)) ∧
    (generate_spiral_structure a (Nx, Ny, Nz) q (0, 0, 0)).2.2 =
      List.replicate (Nx * Ny * Nz) (0 : ℝ) := by
  have hmom : (sitesList (Nx, Ny, Nz)).map (momentAt q (0, 0, 0)) =
      List.replicate (Nx * Ny * Nz) ((0 : ℝ), (0 : ℝ), (0 : ℝ)) := by
    calc (sitesList (Nx, Ny, Nz)).map (momentAt q (0, 0, 0))
        = (sitesList (Nx, Ny, Nz)).map fun _ => ((0 : ℝ), (0 : ℝ), (0 : ℝ)) :=
          List.map_congr_left fun p _ => momentAt_m0_zero q p
      _ = List.replicate (sitesList (Nx, Ny, Nz)).length ((0 : ℝ), (0 : ℝ), (0 : ℝ)) :=
          List.map_const' _ _
      _ = List.replicate (Nx * Ny * Nz) ((0 : ℝ), (0 : ℝ), (0 : ℝ)) := by
          rw [sitesList_length]
  refine ⟨by rw [generate_moments, hmom], ?_⟩
  rw [generate_angles, hmom, anglesList_replicate]

/-- C5: every returned angle lies in `[0, 180]` degrees, and for positive
extents the first angle entry is exactly `0.0`. -/
theorem C5_angle_range (a : ℤ) (Nx Ny Nz : ℕ) (q m0 : ℝ × ℝ × ℝ) (x : ℝ)
    (hNx : 0 < Nx) (hNy : 0 < Ny) (hNz : 0 < Nz)
    (hx : x ∈ (generate_spiral_structure a (Nx, Ny, Nz) q m0).2.2) :
    (generate_spiral_structure a (Nx, Ny, Nz) q m0).2.2.head? = some 0 ∧
    0 ≤ x ∧ x ≤ 180 := by
  refine ⟨?_, ?_⟩
  · rw [generate_angles]
    have hlen : 0 < ((sitesList (Nx, Ny, Nz)).map (momentAt q m0)).length := by
      rw [List.length_map, sitesList_length]
      exact Nat.mul_pos (Nat.mul_pos hNx hNy) hNz
    have hlen' : 0 < ((sitesList (Nx, Ny, Nz)).map (momentAt q m0)).enum.length := by
      simpa using hlen
    rw [List.head?_eq_getElem?]
    simp only [anglesList, List.getElem?_map, List.getElem?_eq_getElem hlen']
    simp [List.getElem_enum]
  · rw [generate_angles] at hx
    simp only [anglesList, List.mem_map] at hx
    obtain ⟨nm, hnm, rfl⟩ := hx
    by_cases h : nm.1 = 0
    · rw [if_pos h]
      norm_num
    · rw [if_neg h]
      exact ⟨angleCalc_nonneg _ _, angleCalc_le_180 _ _⟩

theorem C5_angle_range_witness :
    (generate_spiral_structure 3 (1, 1, 1) (0, 0, 0) (1, 0, 0)).2.2.head? = some 0 ∧
    (0 : ℝ) ≤ 0 ∧ (0 : ℝ) ≤ 180 :=
  C5_angle_range 3 1 1 1 (0, 0, 0) (1, 0, 0) 0
    (by decide) (by decide) (by decide)
    (by simp [generate_spiral_structure, sitesList, anglesList, List.range_succ, List.enum])

set_option linter.unusedVariables false in
/-- C7: for a positive scale `s`, the document written with `scale = s`
equals the document written with `scale = 1` with every cell dimension,
site coordinate and moment component multiplied by `s`, and the same atom
count. -/
theorem C7_scale_equivariance (P M : List (ℝ × ℝ × ℝ)) (R : ℕ × ℕ × ℕ) (s : ℝ)
    (hs : 0 < s) :
    (create_xsf_doc P M R s).cell =
      (s * (create_xsf_doc P M R 1).cell.1,
       s * (create_xsf_doc P M R 1).cell.2.1,
       s * (create_xsf_doc P M R 1).cell.2.2) ∧
    (create_xsf_doc P M R s).count = (create_xsf_doc P M R 1).count ∧
    (create_xsf_doc P M R s).records =
      ((create_xsf_doc P M R 1).records.map fun r =>
        ((s * r.1.1, s * r.1.2.1, s * r.1.2.2),
         (s * r.2.1, s * r.2.2.1, s * r.2.2.2))) := by
  refine ⟨?_, rfl, ?_⟩
  · simp only [create_xsf_doc, Prod.mk.injEq]
    refine ⟨by ring, by ring, by ring⟩
  · simp only [create_xsf_doc, List.map_map]
    refine List.map_congr_left fun pm _ => ?_
    simp only [Function.comp, Prod.mk.injEq]
    refine ⟨⟨by ring, by ring, by ring⟩, by ring, by ring, by ring⟩

theorem C7_scale_equivariance_witness :
    (create_xsf_doc [(1, 2, 3)] [(4, 5, 6)] (7, 8, 9) 2).cell =
      (2 * (create_xsf_doc [(1, 2, 3)] [(4, 5, 6)] (7, 8, 9) 1).cell.1,
       2 * (create_xsf_doc [(1, 2, 3)] [(4, 5, 6)] (7, 8, 9) 1).cell.2.1,
       2 * (create_xsf_doc [(1, 2, 3)] [(4, 5, 6)] (7, 8, 9) 1).cell.2.2) ∧
    (create_xsf_doc [(1, 2, 3)] [(4, 5, 6)] (7, 8, 9) 2).count =
      (create_xsf_doc [(1, 2, 3)] [(4, 5, 6)] (7, 8, 9) 1).count ∧
    (create_xsf_doc [(1, 2, 3)] [(4, 5, 6)] (7, 8, 9) 2).records =
      ((create_xsf_doc [(1, 2, 3)] [(4, 5, 6)] (7, 8, 9) 1).records.map fun r =>
        ((2 * r.1.1, 2 * r.1.2.1, 2 * r.1.2.2),
         (2 * r.2.1, 2 * r.2.2.1, 2 * r.2.2.2))) :=
  C7_scale_equivariance [(1, 2, 3)] [(4, 5, 6)] (7, 8, 9) 2 (by norm_num)

/-- C10: the PRIMCOORD count field always states `len(positions)`, while
the number of data records written is `min(len(positions), len(moments))`
because the writing loop iterates over `zip(positions, magnetic_moments)`,
which truncates to the shorter list. -/
theorem C10_count_vs_records (P M : List (ℝ × ℝ × ℝ)) (R : ℕ × ℕ × ℕ) (s : ℝ) :
    (create_xsf_doc P M R s).count = P.length ∧
    (create_xsf_doc P M R s).records.length = min P.length M.length := by
  refine ⟨rfl, ?_⟩
  simp [create_xsf_doc, List.length_zip]

/-- C8, counterexample: at the input `Nx=Ny=Nz=1`, `q=(0,0,0)`,
`m0=(1,0,0)`, `scale=1`, the sole data line of the document (line index 9)
is not the claimed text `26  0.0000  0.0000  0.0000  1.0000  0.0000  0.0000`
with two spaces between fields: the 8-wide `%.4f` fields pad `0.0000` with
two extra leading spaces. -/
theorem C8_claimed_data_line_false :
    (textLines (create_xsf_text [((0 : ℚ), 0, 0)] [((1 : ℚ), 0, 0)] (1, 1, 1) 1))[9]? ≠
      some "26  0.0000  0.0000  0.0000  1.0000  0.0000  0.0000" := by
  with_unfolding_all decide

/-- C8, amended: for `Nx=Ny=Nz=1`, `q=(0,0,0)`, `m0=(1,0,0)`, `scale=1`,
the generator produces the single site `(0,0,0)` with moment `(1,0,0)` and
angle `0.0`; the document's PRIMCOORD count line reads `1 1` and its sole
data line is the record for element 26 with the six values
`0.0000, 0.0000, 0.0000, 1.0000, 0.0000, 0.0000`, each in an 8-wide
field, so separated by four spaces. -/
theorem C8_single_site_document :
    (generate_spiral_structure 3 (1, 1, 1) (0, 0, 0) (1, 0, 0)).1 = [(0, 0, 0)] ∧
    (generate_spiral_structure 3 (1, 1, 1) (0, 0, 0) (1, 0, 0)).2.1 = [((1 : ℝ), 0, 0)] ∧
    (generate_spiral_structure 3 (1, 1, 1) (0, 0, 0) (1, 0, 0)).2.2 = [(0 : ℝ)] ∧
    (textLines (create_xsf_text [((0 : ℚ), 0, 0)] [((1 : ℚ), 0, 0)] (1, 1, 1) 1))[8]? =
      some "1 1" ∧
    (textLines (create_xsf_text [((0 : ℚ), 0, 0)] [((1 : ℚ), 0, 0)] (1, 1, 1) 1))[9]? =
      some "26    0.0000    0.0000    0.0000    1.0000    0.0000    0.0000" := by
  refine ⟨?_, ?_, ?_, ?_, ?_⟩
  · simp [generate_spiral_structure, sitesList, List.range_succ]
  · simp [generate_spiral_structure, sitesList, List.range_succ, momentAt, phase]
  · simp [generate_spiral_structure, sitesList, List.range_succ, anglesList, List.enum]
  · with_unfolding_all decide
  · with_unfolding_all decide
